import Mathlib

/-!
Verification of the RANSAC line- and plane-fitting implementation
(src/RANSAC_line.cpp and src/RANSAC_plane.cpp).

The C++ doubles are embedded as exact rationals.  Two pieces of external
library behaviour are threaded through as oracle parameters:
the square root used by Eigen's normalized() is a function sq, so that
v.norm() is modelled as sq (normSq v), and the smallest-singular-vector
column of Eigen's JacobiSVD is a function svdV2 from the centered point
rows to a vector (Eigen guarantees the column is unit length, which
theorems take as a hypothesis).  Comparisons of norms against thresholds
in the source are encoded on squared norms, which is exact:
for t greater than 0, norm v is less than t iff normSq v is less than t
squared.  The random draws of the source are supplied by explicit index
oracles.  The line variant's retry loop re-declares pt2 inside the while
body, so when the two drawn points coincide the loop condition never
changes and the run diverges; a run of the line variant is therefore
modelled as an Option, none standing for the divergence (and for the
undefined rand() modulo 0 on an empty store).
-/

/-- 2-D point (a std::pair of doubles in the source). -/
abbrev Point2 := ℚ × ℚ

/-- 3-D vector (Eigen::Vector3d in the source). -/
structure Vec3 where
  x : ℚ
  y : ℚ
  z : ℚ
deriving DecidableEq

def vzero : Vec3 := ⟨0, 0, 0⟩

def vadd (v w : Vec3) : Vec3 := ⟨v.x + w.x, v.y + w.y, v.z + w.z⟩

def vsub (v w : Vec3) : Vec3 := ⟨v.x - w.x, v.y - w.y, v.z - w.z⟩

def vneg (v : Vec3) : Vec3 := ⟨-v.x, -v.y, -v.z⟩

def vscale (q : ℚ) (v : Vec3) : Vec3 := ⟨q * v.x, q * v.y, q * v.z⟩

def dot (v w : Vec3) : ℚ := v.x * w.x + v.y * w.y + v.z * w.z

def cross (v w : Vec3) : Vec3 :=
  ⟨v.y * w.z - v.z * w.y, v.z * w.x - v.x * w.z, v.x * w.y - v.y * w.x⟩

def normSq (v : Vec3) : ℚ := v.x ^ 2 + v.y ^ 2 + v.z ^ 2

def vsum (l : List Vec3) : Vec3 := l.foldl vadd vzero

/-- Eigen's v.normalized() is v divided by v.norm(); the library square root
is the oracle sq, so v.norm() = sq (normSq v). -/
def vnormalized (sq : ℚ → ℚ) (v : Vec3) : Vec3 := vscale (1 / sq (normSq v)) v

/-- PlaneModel of RANSAC_plane.cpp.  The field normal mirrors the Eigen
member; the default constructor leaves that member default-constructed,
modelled as the zero vector. -/
structure PlaneModel where
  a : ℚ
  b : ℚ
  c : ℚ
  d : ℚ
  normal : Vec3
deriving DecidableEq

/-- PlaneModel(): a = b = c = d = 0 and a default normal. -/
def PlaneModel.init : PlaneModel := ⟨0, 0, 0, 0, vzero⟩

/-- PlaneModel(pt1, pt2, pt3): cross product of the two edge vectors;
degenerate when its norm is below 1e-9 (squared: 1e-18), else normalize. -/
def PlaneModel.ofPoints (sq : ℚ → ℚ) (pt1 pt2 pt3 : Vec3) : PlaneModel :=
  let cp := cross (vsub pt2 pt1) (vsub pt3 pt1)
  if normSq cp < 1 / 10 ^ 18 then PlaneModel.init
  else
    let n := vnormalized sq cp
    ⟨n.x, n.y, n.z, -(dot n pt1), n⟩

/-- PlaneModel(normal_vec, centroid): stores normal_vec.normalized() and
d = -(normal dot centroid). -/
def PlaneModel.ofNormalCentroid (sq : ℚ → ℚ) (nv centroid : Vec3) : PlaneModel :=
  let n := vnormalized sq nv
  ⟨n.x, n.y, n.z, -(dot n centroid), n⟩

/-- computeDistance: sentinel 1e10 when a*a + b*b + c*c is below 1e-18,
otherwise the absolute plane equation residual. -/
def PlaneModel.computeDistance (m : PlaneModel) (pt : Vec3) : ℚ :=
  if m.a * m.a + m.b * m.b + m.c * m.c < 1 / 10 ^ 18 then 10 ^ 10
  else |m.a * pt.x + m.b * pt.y + m.c * pt.z + m.d|

/-- isValid: normal.norm() above 1e-9, encoded on the squared norm. -/
def PlaneModel.isValid (m : PlaneModel) : Bool :=
  decide (1 / 10 ^ 18 < normSq m.normal)

/-- LineModel of RANSAC_line.cpp. -/
structure LineModel where
  m : ℚ
  b : ℚ
deriving DecidableEq

/-- LineModel(): m = 0, b = 0. -/
def LineModel.init : LineModel := ⟨0, 0⟩

/-- LineModel(p1, p2): slope through the two points, with the 1e10 sentinel
when the x-coordinates coincide; b = p1.y - m * p1.x. -/
def LineModel.ofPoints (p1 p2 : Point2) : LineModel :=
  let m := if p2.1 - p1.1 ≠ 0 then (p2.2 - p1.2) / (p2.1 - p1.1) else 10 ^ 10
  ⟨m, p1.2 - m * p1.1⟩

/-- computeError: absolute difference between the estimated and actual y. -/
def LineModel.computeError (lm : LineModel) (pt : Point2) : ℚ :=
  |lm.m * pt.1 + lm.b - pt.2|

/-- The push_back scan the source uses to build a consensus set. -/
def pushScan {α : Type} (p : α → Bool) (acc : List α) : List α → List α
  | [] => acc
  | pt :: pts => pushScan p (if p pt then acc ++ [pt] else acc) pts

namespace Plane

/-- The RANSAC class of RANSAC_plane.cpp (configuration plus data). -/
structure RANSAC where
  data : List Vec3
  error_tolerance : ℚ
  max_iterations : ℕ
  min_consensus : ℤ

/-- getConsensusSet: empty for an invalid model, otherwise the points of
data whose distance is strictly below the tolerance, pushed in order. -/
def getConsensusSet (R : RANSAC) (model : PlaneModel) : List Vec3 :=
  if model.isValid then
    pushScan (fun pt => decide (model.computeDistance pt < R.error_tolerance)) [] R.data
  else []

/-- areCollinear: cross product of the edge vectors has norm below 1e-9. -/
def areCollinear (p1 p2 p3 : Vec3) : Bool :=
  decide (normSq (cross (vsub p2 p1) (vsub p3 p1)) < 1 / 10 ^ 18)

/-- fitModel: invalid for fewer than 3 points, otherwise centroid, centered
rows, SVD normal (oracle svdV2), sign flip towards normal dot centroid
not positive, and the normal-centroid constructor. -/
def fitModel (sq : ℚ → ℚ) (svdV2 : List Vec3 → Vec3) (consensus_set : List Vec3) :
    PlaneModel :=
  if consensus_set.length < 3 then PlaneModel.init
  else
    let centroid := vscale (1 / (consensus_set.length : ℚ)) (vsum consensus_set)
    let centered := consensus_set.map (fun pt => vsub pt centroid)
    let nv0 := svdV2 centered
    let nv := if 0 < dot nv0 centroid then vneg nv0 else nv0
    PlaneModel.ofNormalCentroid sq nv centroid

/-- The attempt loop inside run: scan consecutive index triples of the
shuffled indices, stopping at the first non-collinear triple that yields a
valid model. -/
def scanAttempts (sq : ℚ → ℚ) (data : List Vec3) (indices : List ℕ) :
    ℕ → ℕ → Option PlaneModel
  | 0, _ => none
  | k + 1, att =>
    let p1 := data.getD (indices.getD att 0) vzero
    let p2 := data.getD (indices.getD (att + 1) 0) vzero
    let p3 := data.getD (indices.getD (att + 2) 0) vzero
    if !areCollinear p1 p2 p3 && (PlaneModel.ofPoints sq p1 p2 p3).isValid then
      some (PlaneModel.ofPoints sq p1 p2 p3)
    else scanAttempts sq data indices k (att + 1)

/-- Sampling step of one iteration of run: bounded scan over at most
min 10 (size - 2) consecutive triples of the shuffled indices; the break on
fewer than 3 indices yields no candidate. -/
def findSample (sq : ℚ → ℚ) (data : List Vec3) (indices : List ℕ) :
    Option PlaneModel :=
  if indices.length < 3 then none
  else scanAttempts sq data indices (min 10 (data.length - 2)) 0

/-- The mutable loop state of run: bestInliersCount, bestConsensusSet and
attempts_without_improvement. -/
structure State where
  best : ℤ
  bestSet : List Vec3
  stale : ℤ
deriving DecidableEq

/-- The best-so-far update of one iteration: strictly more inliers replace
the best set and reset the stagnation counter, otherwise the counter
advances. -/
def update (st : State) (cs : List Vec3) : State :=
  if st.best < (cs.length : ℤ) then ⟨(cs.length : ℤ), cs, 0⟩
  else ⟨st.best, st.bestSet, st.stale + 1⟩

/-- Early termination condition of run: the threshold is met and the
stagnation counter strictly exceeds max_iterations / 4. -/
def stopCond (R : RANSAC) (st : State) : Prop :=
  R.min_consensus ≤ st.best ∧ ((R.max_iterations / 4 : ℕ) : ℤ) < st.stale

instance (R : RANSAC) (st : State) : Decidable (stopCond R st) := by
  unfold stopCond; infer_instance

/-- The iteration loop of run, fuel counting the remaining iterations; the
returned number is the fuel left at exit (positive exactly when the break
fired).  An iteration with no valid sample advances without the break
check, as in the source. -/
def loop (R : RANSAC) (sq : ℚ → ℚ) (perm : ℕ → List ℕ) :
    ℕ → ℕ → State → State × ℕ
  | 0, _, st => (st, 0)
  | fuel + 1, i, st =>
    match findSample sq R.data (perm i) with
    | none => loop R sq perm fuel (i + 1) st
    | some model =>
      let st2 := update st (getConsensusSet R model)
      if stopCond R st2 then (st2, fuel)
      else loop R sq perm fuel (i + 1) st2

def initState : State := ⟨0, [], 0⟩

/-- run of RANSAC_plane.cpp: guard on fewer than 3 points, the iteration
loop, and the final refit of the best consensus set when it has at least 3
points and the refit is valid. -/
def run (R : RANSAC) (sq : ℚ → ℚ) (svdV2 : List Vec3 → Vec3)
    (perm : ℕ → List ℕ) : PlaneModel :=
  if R.data.length < 3 then PlaneModel.init
  else
    let st := (loop R sq perm R.max_iterations 0 initState).1
    if st.bestSet ≠ [] ∧ 3 ≤ st.bestSet.length then
      let finalModel := fitModel sq svdV2 st.bestSet
      if finalModel.isValid then finalModel else PlaneModel.init
    else PlaneModel.init

/-- The accumulation loop of evaluateModel: total error and inlier count. -/
def evalScan (R : RANSAC) (model : PlaneModel) : List Vec3 → ℚ × ℕ → ℚ × ℕ
  | [], acc => acc
  | pt :: pts, acc =>
    evalScan R model pts
      (if model.computeDistance pt < R.error_tolerance then
        (acc.1 + model.computeDistance pt, acc.2 + 1)
      else acc)

/-- evaluateModel: 1e10 for an invalid model or when no inlier exists,
otherwise the mean inlier distance. -/
def evaluateModel (R : RANSAC) (model : PlaneModel) : ℚ :=
  if !model.isValid then 10 ^ 10
  else
    let acc := evalScan R model R.data (0, 0)
    if acc.2 = 0 then 10 ^ 10 else acc.1 / (acc.2 : ℚ)

end Plane

namespace Line

/-- The RANSAC class of RANSAC_line.cpp (configuration plus data). -/
structure RANSAC where
  data : List Point2
  tolerance : ℚ
  max_iterations : ℕ
  threshold : ℤ

/-- The inline consensus loop of run: points of data whose error is
strictly below the tolerance, pushed in order. -/
def lineConsensus (data : List Point2) (tol : ℚ) (model : LineModel) :
    List Point2 :=
  pushScan (fun pt => decide (model.computeError pt < tol)) [] data

/-- The summation loop of FitLeastSquares: sumX, sumY, sumX2, sumXY. -/
def lsqAcc : List Point2 → ℚ × ℚ × ℚ × ℚ → ℚ × ℚ × ℚ × ℚ
  | [], acc => acc
  | pt :: pts, (sX, sY, sX2, sXY) =>
    lsqAcc pts (sX + pt.1, sY + pt.2, sX2 + pt.1 * pt.1, sXY + pt.1 * pt.2)

/-- FitLeastSquares: the normal-equation solution, or the default model
when the denominator vanishes. -/
def FitLeastSquares (points : List Point2) : LineModel :=
  let s := lsqAcc points (0, 0, 0, 0)
  let n : ℚ := (points.length : ℚ)
  let denom := n * s.2.2.1 - s.1 * s.1
  if denom = 0 then LineModel.init
  else
    let m := (n * s.2.2.2 - s.1 * s.2.1) / denom
    ⟨m, (s.2.1 - m * s.1) / n⟩

/-- The mutable loop state of run: bestInLiers and bestModel. -/
structure State where
  best : ℤ
  bestModel : LineModel
deriving DecidableEq

/-- The best-so-far update of one iteration: strictly more inliers store
the least-squares refit of the consensus set. -/
def update (st : State) (cs : List Point2) : State :=
  if st.best < (cs.length : ℤ) then ⟨(cs.length : ℤ), FitLeastSquares cs⟩ else st

/-- One iteration of run.  The draws rand() mod size come from the oracle
rnd at positions 2i and 2i+1.  An empty store makes rand() mod 0 undefined,
and coinciding draws make the retry while-loop (whose body re-declares pt2
without updating the tested outer pt2) spin forever; both are none. -/
def step (R : RANSAC) (rnd : ℕ → ℕ) (i : ℕ) (st : State) : Option State :=
  if R.data.length = 0 then none
  else
    let pt1 := R.data.getD (rnd (2 * i) % R.data.length) (0, 0)
    let pt2 := R.data.getD (rnd (2 * i + 1) % R.data.length) (0, 0)
    if pt1 = pt2 then none
    else some (update st (lineConsensus R.data R.tolerance (LineModel.ofPoints pt1 pt2)))

/-- The iteration loop of run; the returned number is the fuel left at
exit (positive exactly when the threshold break fired early). -/
def loop (R : RANSAC) (rnd : ℕ → ℕ) : ℕ → ℕ → State → Option (State × ℕ)
  | 0, _, st => some (st, 0)
  | fuel + 1, i, st =>
    match step R rnd i st with
    | none => none
    | some st2 =>
      if R.threshold ≤ st2.best then some (st2, fuel)
      else loop R rnd fuel (i + 1) st2

def initState : State := ⟨0, LineModel.init⟩

/-- run of RANSAC_line.cpp: the loop from the zero state; its best model
is the result when the loop terminates at all. -/
def run (R : RANSAC) (rnd : ℕ → ℕ) : Option LineModel :=
  (loop R rnd R.max_iterations 0 initState).map (fun p => p.1.bestModel)

end Line

/-- Spec formula: the sum of the x-coordinates. -/
def sumX (points : List Point2) : ℚ := (points.map Prod.fst).sum

/-- Spec formula: the sum of the y-coordinates. -/
def sumY (points : List Point2) : ℚ := (points.map Prod.snd).sum

/-- Spec formula: the sum of the squared x-coordinates. -/
def sumX2 (points : List Point2) : ℚ := (points.map (fun pt => pt.1 ^ 2)).sum

/-- Spec formula: the sum of the products x times y. -/
def sumXY (points : List Point2) : ℚ := (points.map (fun pt => pt.1 * pt.2)).sum

/-- Spec formula: the least-squares denominator n * sumX2 - sumX squared. -/
def lsqDenom (points : List Point2) : ℚ :=
  (points.length : ℚ) * sumX2 points - sumX points ^ 2

/-- Spec formula: m = (n * sumXY - sumX * sumY) / (n * sumX2 - sumX squared). -/
def lsqSlope (points : List Point2) : ℚ :=
  ((points.length : ℚ) * sumXY points - sumX points * sumY points) / lsqDenom points

/-- Spec formula: b = (sumY - m * sumX) / n. -/
def lsqIntercept (points : List Point2) : ℚ :=
  (sumY points - lsqSlope points * sumX points) / (points.length : ℚ)

theorem pushScan_eq {α : Type} (p : α → Bool) :
    ∀ (l acc : List α), pushScan p acc l = acc ++ l.filter p := by
  intro l
  induction l with
  | nil => intro acc; simp [pushScan]
  | cons pt pts ih =>
    intro acc
    by_cases hp : p pt = true
    · simp [pushScan, hp, ih]
    · simp [pushScan, hp, ih, Bool.eq_false_iff.2 hp]

theorem lsqAcc_eq :
    ∀ (l : List Point2) (a b c d : ℚ),
      Line.lsqAcc l (a, b, c, d) = (a + sumX l, b + sumY l, c + sumX2 l, d + sumXY l) := by
  intro l
  induction l with
  | nil => intro a b c d; simp [Line.lsqAcc, sumX, sumY, sumX2, sumXY]
  | cons pt pts ih =>
    intro a b c d
    rw [Line.lsqAcc, ih]
    simp only [sumX, sumY, sumX2, sumXY, List.map_cons, List.sum_cons, Prod.mk.injEq]
    refine ⟨by ring, by ring, by ring, by ring⟩

theorem evalScan_eq (R : Plane.RANSAC) (model : PlaneModel) :
    ∀ (l : List Vec3) (t : ℚ) (c : ℕ),
      Plane.evalScan R model l (t, c) =
        (t + ((l.filter (fun pt => decide (model.computeDistance pt < R.error_tolerance))).map
            (fun pt => model.computeDistance pt)).sum,
         c + (l.filter (fun pt => decide (model.computeDistance pt < R.error_tolerance))).length) := by
  intro l
  induction l with
  | nil => intro t c; simp [Plane.evalScan]
  | cons pt pts ih =>
    intro t c
    by_cases h : model.computeDistance pt < R.error_tolerance
    · rw [Plane.evalScan, if_pos h, ih]
      simp [List.filter_cons, h, add_assoc, Nat.add_comm]
    · rw [Plane.evalScan, if_neg h, ih]
      simp [List.filter_cons, h]

theorem init_isValid_false : PlaneModel.init.isValid = false := by
  rw [PlaneModel.isValid, PlaneModel.init]
  norm_num [normSq, vzero]

/-- Claim C1: for every point store and every model, the consensus
evaluator returns exactly the points whose error metric is strictly below
the tolerance, in store order (a sublist of the store equal to the filter),
and an invalid plane model yields an empty consensus set.  The line variant
has the same filter behaviour for its inline consensus loop. -/
theorem consensus_evaluator_spec :
    (∀ (R : Plane.RANSAC) (model : PlaneModel),
      (model.isValid = true →
        Plane.getConsensusSet R model =
          R.data.filter (fun pt => decide (model.computeDistance pt < R.error_tolerance))) ∧
      (Plane.getConsensusSet R model).Sublist R.data ∧
      (∀ pt, pt ∈ Plane.getConsensusSet R model ↔
        pt ∈ R.data ∧ model.isValid = true ∧
          model.computeDistance pt < R.error_tolerance) ∧
      (model.isValid = false → Plane.getConsensusSet R model = [])) ∧
    (∀ (data : List Point2) (tol : ℚ) (model : LineModel),
      Line.lineConsensus data tol model =
        data.filter (fun pt => decide (model.computeError pt < tol)) ∧
      (Line.lineConsensus data tol model).Sublist data ∧
      (∀ pt, pt ∈ Line.lineConsensus data tol model ↔
        pt ∈ data ∧ model.computeError pt < tol)) := by
  constructor
  · intro R model
    refine ⟨?_, ?_, ?_, ?_⟩
    · intro hv
      rw [Plane.getConsensusSet, if_pos hv, pushScan_eq, List.nil_append]
    · rw [Plane.getConsensusSet]
      by_cases hv : model.isValid = true
      · rw [if_pos hv, pushScan_eq, List.nil_append]
        exact List.filter_sublist _
      · rw [if_neg hv]
        exact List.nil_sublist _
    · intro pt
      rw [Plane.getConsensusSet]
      by_cases hv : model.isValid = true
      · rw [if_pos hv, pushScan_eq, List.nil_append]
        simp [List.mem_filter, hv]
      · rw [if_neg hv]
        simp only [List.not_mem_nil, false_iff]
        intro h
        exact hv h.2.1
    · intro hf
      rw [Plane.getConsensusSet, if_neg (by simp [hf])]
  · intro data tol model
    refine ⟨?_, ?_, ?_⟩
    · rw [Line.lineConsensus, pushScan_eq, List.nil_append]
    · rw [Line.lineConsensus, pushScan_eq, List.nil_append]
      exact List.filter_sublist _
    · intro pt
      rw [Line.lineConsensus, pushScan_eq, List.nil_append]
      simp [List.mem_filter]

/-- Claim C1 witness at a concrete store, a valid and an invalid model. -/
theorem consensus_evaluator_spec_witness :
    Plane.getConsensusSet ⟨[⟨0, 0, 0⟩, ⟨0, 0, 5⟩], 1, 10, 3⟩ PlaneModel.init = [] ∧
    ((0 : ℚ), (0 : ℚ)) ∈ Line.lineConsensus [((0 : ℚ), (0 : ℚ)), (0, 5)] 1 LineModel.init := by
  constructor
  · exact (consensus_evaluator_spec.1 ⟨[⟨0, 0, 0⟩, ⟨0, 0, 5⟩], 1, 10, 3⟩
      PlaneModel.init).2.2.2 init_isValid_false
  · exact ((consensus_evaluator_spec.2 [((0 : ℚ), (0 : ℚ)), (0, 5)] 1
      LineModel.init).2.2 (0, 0)).2
      ⟨List.mem_cons_self _ _, by norm_num [LineModel.computeError, LineModel.init]⟩

/-- Claim C9: the two-point line constructor realizes the slope and
intercept formulas when the x-coordinates differ, maps a vertical pair to
the finite sentinel slope 1e10, and its error metric is the non-negative
vertical distance. -/
theorem line_model_spec :
    ∀ (p1 p2 pt : Point2),
      (p1.1 ≠ p2.1 →
        (LineModel.ofPoints p1 p2).m = (p2.2 - p1.2) / (p2.1 - p1.1) ∧
        (LineModel.ofPoints p1 p2).b = p1.2 - (LineModel.ofPoints p1 p2).m * p1.1) ∧
      (p1.1 = p2.1 → (LineModel.ofPoints p1 p2).m = 10 ^ 10) ∧
      0 ≤ (LineModel.ofPoints p1 p2).computeError pt ∧
      (LineModel.ofPoints p1 p2).computeError pt =
        |(LineModel.ofPoints p1 p2).m * pt.1 + (LineModel.ofPoints p1 p2).b - pt.2| := by
  intro p1 p2 pt
  refine ⟨?_, ?_, abs_nonneg _, rfl⟩
  · intro h
    have hsub : p2.1 - p1.1 ≠ 0 := sub_ne_zero.2 (Ne.symm h)
    exact ⟨by simp [LineModel.ofPoints, hsub], rfl⟩
  · intro h
    have hsub : p2.1 - p1.1 = 0 := by rw [h, sub_self]
    simp [LineModel.ofPoints, hsub]

/-- Claim C9 witness at the points (0, 1) and (2, 5). -/
theorem line_model_spec_witness :
    (LineModel.ofPoints ((0 : ℚ), (1 : ℚ)) (2, 5)).m = (5 - 1) / (2 - 0) ∧
    (LineModel.ofPoints ((1 : ℚ), (1 : ℚ)) (1, 5)).m = 10 ^ 10 := by
  constructor
  · exact ((line_model_spec (0, 1) (2, 5) (0, 0)).1 (by norm_num)).1
  · exact (line_model_spec (1, 1) (1, 5) (0, 0)).2.1 rfl

/-- Claim C3: on a non-empty consensus set FitLeastSquares returns the
ordinary-least-squares line of the spec formulas, and returns the default
model when the denominator vanishes. -/
theorem fit_least_squares_spec :
    ∀ (points : List Point2), points ≠ [] →
      (lsqDenom points = 0 → Line.FitLeastSquares points = LineModel.init) ∧
      (lsqDenom points ≠ 0 →
        Line.FitLeastSquares points = ⟨lsqSlope points, lsqIntercept points⟩) := by
  intro points _
  have hacc : Line.lsqAcc points (0, 0, 0, 0) =
      (sumX points, sumY points, sumX2 points, sumXY points) := by
    rw [lsqAcc_eq]
    simp
  have hdenom : (points.length : ℚ) * sumX2 points - sumX points * sumX points =
      lsqDenom points := by
    rw [lsqDenom]; ring
  constructor
  · intro h0
    rw [Line.FitLeastSquares]
    simp only [hacc, hdenom]
    rw [if_pos h0]
  · intro h0
    rw [Line.FitLeastSquares]
    simp only [hacc, hdenom]
    rw [if_neg h0]
    simp only [lsqSlope, lsqIntercept]

/-- Claim C3 witness: the points (0, 0) and (2, 2) give the least-squares
line, and two points sharing x = 1 give the default model. -/
theorem fit_least_squares_spec_witness :
    Line.FitLeastSquares [((0 : ℚ), (0 : ℚ)), (2, 2)] =
      ⟨lsqSlope [((0 : ℚ), (0 : ℚ)), (2, 2)], lsqIntercept [((0 : ℚ), (0 : ℚ)), (2, 2)]⟩ ∧
    Line.FitLeastSquares [((1 : ℚ), (0 : ℚ)), (1, 4)] = LineModel.init := by
  constructor
  · refine (fit_least_squares_spec [((0 : ℚ), (0 : ℚ)), (2, 2)] (by simp)).2 ?_
    norm_num [lsqDenom, sumX, sumX2]
  · refine (fit_least_squares_spec [((1 : ℚ), (0 : ℚ)), (1, 4)] (by simp)).1 ?_
    norm_num [lsqDenom, sumX, sumX2]

/-- Claim C10: evaluateModel returns the sentinel 1e10 when the model is
invalid or no point lies strictly within the tolerance, and otherwise the
arithmetic mean of the distances of the points strictly within tolerance;
in particular the division only happens with a positive count. -/
theorem evaluate_model_spec :
    ∀ (R : Plane.RANSAC) (model : PlaneModel),
      Plane.evaluateModel R model =
        if model.isValid = true ∧
            R.data.filter
              (fun pt => decide (model.computeDistance pt < R.error_tolerance)) ≠ [] then
          ((R.data.filter
              (fun pt => decide (model.computeDistance pt < R.error_tolerance))).map
                (fun pt => model.computeDistance pt)).sum /
            (((R.data.filter
              (fun pt => decide (model.computeDistance pt < R.error_tolerance))).length : ℚ))
        else 10 ^ 10 := by
  intro R model
  by_cases hv : model.isValid = true
  · rw [Plane.evaluateModel]
    simp only [hv, Bool.not_true, Bool.false_eq_true, if_false]
    rw [evalScan_eq R model R.data 0 0]
    simp only [zero_add]
    by_cases hz : R.data.filter
        (fun pt => decide (model.computeDistance pt < R.error_tolerance)) = []
    · rw [hz]
      simp [hz]
    · have hlen : (R.data.filter
          (fun pt => decide (model.computeDistance pt < R.error_tolerance))).length ≠ 0 := by
        simpa [List.length_eq_zero] using hz
      rw [if_neg hlen, if_pos ⟨trivial, hz⟩]
  · have hv2 : model.isValid = false := by
      cases h : model.isValid
      · rfl
      · exact absurd h hv
    rw [Plane.evaluateModel, hv2]
    simp [hv2]

theorem normSq_vneg (v : Vec3) : normSq (vneg v) = normSq v := by
  simp only [normSq, vneg]
  ring

theorem dot_vneg_left (v w : Vec3) : dot (vneg v) w = -(dot v w) := by
  simp only [dot, vneg]
  ring

theorem vscale_one (v : Vec3) : vscale 1 v = v := by
  cases v
  simp [vscale]

theorem vnormalized_unit (sq : ℚ → ℚ) (v : Vec3) (h1 : sq 1 = 1)
    (hv : normSq v = 1) : vnormalized sq v = v := by
  rw [vnormalized, hv, h1, one_div_one, vscale_one]

theorem ofNormalCentroid_normal (sq : ℚ → ℚ) (nv c : Vec3) :
    (PlaneModel.ofNormalCentroid sq nv c).normal = vnormalized sq nv := rfl

/-- Shared shape of fitModel on at least 3 points: the sign-flipped SVD
normal fed to the normal-centroid constructor. -/
theorem fitModel_eq (sq : ℚ → ℚ) (svdV2 : List Vec3 → Vec3) (cs : List Vec3)
    (h3 : 3 ≤ cs.length) :
    Plane.fitModel sq svdV2 cs =
      PlaneModel.ofNormalCentroid sq
        (if 0 < dot (svdV2 (cs.map (fun pt =>
            vsub pt (vscale (1 / (cs.length : ℚ)) (vsum cs)))))
              (vscale (1 / (cs.length : ℚ)) (vsum cs)) then
          vneg (svdV2 (cs.map (fun pt =>
            vsub pt (vscale (1 / (cs.length : ℚ)) (vsum cs)))))
        else svdV2 (cs.map (fun pt =>
          vsub pt (vscale (1 / (cs.length : ℚ)) (vsum cs)))))
        (vscale (1 / (cs.length : ℚ)) (vsum cs)) := by
  rw [Plane.fitModel, if_neg (not_lt.2 h3)]

/-- Core properties of fitModel under the Eigen contract that the SVD
column is a unit vector and the square root of 1 is 1. -/
theorem fitModel_spec (sq : ℚ → ℚ) (svdV2 : List Vec3 → Vec3) (cs : List Vec3)
    (h1 : sq 1 = 1) (hu : ∀ l, normSq (svdV2 l) = 1) (h3 : 3 ≤ cs.length) :
    normSq (Plane.fitModel sq svdV2 cs).normal = 1 ∧
    (Plane.fitModel sq svdV2 cs).isValid = true ∧
    dot (Plane.fitModel sq svdV2 cs).normal
      (vscale (1 / (cs.length : ℚ)) (vsum cs)) ≤ 0 := by
  rw [fitModel_eq sq svdV2 cs h3, ofNormalCentroid_normal]
  set c := vscale (1 / (cs.length : ℚ)) (vsum cs) with hc
  set n0 := svdV2 (cs.map (fun pt => vsub pt c)) with hn0
  have hun0 : normSq n0 = 1 := hu _
  by_cases hd : 0 < dot n0 c
  · rw [if_pos hd]
    have hnn : normSq (vneg n0) = 1 := by rw [normSq_vneg, hun0]
    rw [vnormalized_unit sq _ h1 hnn]
    refine ⟨hnn, ?_, ?_⟩
    · rw [PlaneModel.isValid, ofNormalCentroid_normal, vnormalized_unit sq _ h1 hnn, hnn]
      norm_num
    · rw [dot_vneg_left]
      linarith
  · rw [if_neg hd]
    rw [vnormalized_unit sq _ h1 hun0]
    refine ⟨hun0, ?_, ?_⟩
    · rw [PlaneModel.isValid, ofNormalCentroid_normal, vnormalized_unit sq _ h1 hun0, hun0]
      norm_num
    · exact le_of_not_lt hd

theorem plane_update_best_mono (st : Plane.State) (cs : List Vec3) :
    st.best ≤ (Plane.update st cs).best := by
  rw [Plane.update]
  by_cases h : st.best < (cs.length : ℤ)
  · rw [if_pos h]
    exact le_of_lt h
  · rw [if_neg h]

theorem plane_update_changes (st : Plane.State) (cs : List Vec3) :
    ((Plane.update st cs).bestSet ≠ st.bestSet → st.best < (cs.length : ℤ)) ∧
    ((Plane.update st cs).best ≠ st.best → st.best < (cs.length : ℤ)) := by
  rw [Plane.update]
  by_cases h : st.best < (cs.length : ℤ)
  · rw [if_pos h]
    exact ⟨fun _ => h, fun _ => h⟩
  · rw [if_neg h]
    exact ⟨fun hne => absurd rfl hne, fun hne => absurd rfl hne⟩

theorem plane_loop_best_mono (R : Plane.RANSAC) (sq : ℚ → ℚ) (perm : ℕ → List ℕ) :
    ∀ (fuel i : ℕ) (st : Plane.State),
      st.best ≤ ((Plane.loop R sq perm fuel i st).1).best := by
  intro fuel
  induction fuel with
  | zero => intro i st; exact le_rfl
  | succ k ih =>
    intro i st
    simp only [Plane.loop]
    cases hfs : Plane.findSample sq R.data (perm i) with
    | none => exact ih (i + 1) st
    | some model =>
      simp only []
      by_cases hstop : Plane.stopCond R (Plane.update st (Plane.getConsensusSet R model))
      · rw [if_pos hstop]
        exact plane_update_best_mono st _
      · rw [if_neg hstop]
        exact le_trans (plane_update_best_mono st _) (ih (i + 1) _)

theorem plane_loop_early (R : Plane.RANSAC) (sq : ℚ → ℚ) (perm : ℕ → List ℕ) :
    ∀ (fuel i : ℕ) (st st2 : Plane.State) (r : ℕ),
      Plane.loop R sq perm fuel i st = (st2, r) → 0 < r → Plane.stopCond R st2 := by
  intro fuel
  induction fuel with
  | zero =>
    intro i st st2 r h hr
    simp only [Plane.loop] at h
    injection h with h1 h2
    rw [← h2] at hr
    exact absurd hr (lt_irrefl 0)
  | succ k ih =>
    intro i st st2 r h hr
    simp only [Plane.loop] at h
    cases hfs : Plane.findSample sq R.data (perm i) with
    | none =>
      rw [hfs] at h
      exact ih (i + 1) st st2 r h hr
    | some model =>
      rw [hfs] at h
      simp only [] at h
      by_cases hstop : Plane.stopCond R (Plane.update st (Plane.getConsensusSet R model))
      · rw [if_pos hstop] at h
        injection h with h1 h2
        rw [← h1]
        exact hstop
      · rw [if_neg hstop] at h
        exact ih (i + 1) _ st2 r h hr

theorem line_update_best_mono (st : Line.State) (cs : List Point2) :
    st.best ≤ (Line.update st cs).best := by
  rw [Line.update]
  by_cases h : st.best < (cs.length : ℤ)
  · rw [if_pos h]
    exact le_of_lt h
  · rw [if_neg h]

theorem line_update_changes (st : Line.State) (cs : List Point2) :
    ((Line.update st cs).bestModel ≠ st.bestModel → st.best < (cs.length : ℤ)) ∧
    ((Line.update st cs).best ≠ st.best → st.best < (cs.length : ℤ)) := by
  rw [Line.update]
  by_cases h : st.best < (cs.length : ℤ)
  · rw [if_pos h]
    exact ⟨fun _ => h, fun _ => h⟩
  · rw [if_neg h]
    exact ⟨fun hne => absurd rfl hne, fun hne => absurd rfl hne⟩

theorem line_step_some (R : Line.RANSAC) (rnd : ℕ → ℕ) (i : ℕ) (st st2 : Line.State)
    (h : Line.step R rnd i st = some st2) :
    ∃ pt1 pt2 : Point2, pt1 ≠ pt2 ∧
      st2 = Line.update st (Line.lineConsensus R.data R.tolerance (LineModel.ofPoints pt1 pt2)) := by
  rw [Line.step] at h
  by_cases h0 : R.data.length = 0
  · rw [if_pos h0] at h
    cases h
  · rw [if_neg h0] at h
    simp only [] at h
    by_cases heq : R.data.getD (rnd (2 * i) % R.data.length) (0, 0) =
        R.data.getD (rnd (2 * i + 1) % R.data.length) (0, 0)
    · rw [if_pos heq] at h
      cases h
    · rw [if_neg heq] at h
      exact ⟨_, _, heq, (Option.some.inj h).symm⟩

theorem line_step_best_mono (R : Line.RANSAC) (rnd : ℕ → ℕ) (i : ℕ) (st st2 : Line.State)
    (h : Line.step R rnd i st = some st2) : st.best ≤ st2.best := by
  obtain ⟨pt1, pt2, _, hst2⟩ := line_step_some R rnd i st st2 h
  rw [hst2]
  exact line_update_best_mono st _

theorem line_loop_best_mono (R : Line.RANSAC) (rnd : ℕ → ℕ) :
    ∀ (fuel i : ℕ) (st st2 : Line.State) (r : ℕ),
      Line.loop R rnd fuel i st = some (st2, r) → st.best ≤ st2.best := by
  intro fuel
  induction fuel with
  | zero =>
    intro i st st2 r h
    simp only [Line.loop] at h
    injection h with h
    injection h with h1 h2
    rw [← h1]
  | succ k ih =>
    intro i st st2 r h
    simp only [Line.loop] at h
    cases hstep : Line.step R rnd i st with
    | none =>
      rw [hstep] at h
      cases h
    | some st3 =>
      rw [hstep] at h
      simp only [] at h
      have hmono := line_step_best_mono R rnd i st st3 hstep
      by_cases hth : R.threshold ≤ st3.best
      · rw [if_pos hth] at h
        injection h with h
        injection h with h1 h2
        rw [← h1]
        exact hmono
      · rw [if_neg hth] at h
        exact le_trans hmono (ih (i + 1) st3 st2 r h)

theorem line_loop_early (R : Line.RANSAC) (rnd : ℕ → ℕ) :
    ∀ (fuel i : ℕ) (st st2 : Line.State) (r : ℕ),
      Line.loop R rnd fuel i st = some (st2, r) → 0 < r → R.threshold ≤ st2.best := by
  intro fuel
  induction fuel with
  | zero =>
    intro i st st2 r h hr
    simp only [Line.loop] at h
    injection h with h
    injection h with h1 h2
    rw [← h2] at hr
    exact absurd hr (lt_irrefl 0)
  | succ k ih =>
    intro i st st2 r h hr
    simp only [Line.loop] at h
    cases hstep : Line.step R rnd i st with
    | none =>
      rw [hstep] at h
      cases h
    | some st3 =>
      rw [hstep] at h
      simp only [] at h
      by_cases hth : R.threshold ≤ st3.best
      · rw [if_pos hth] at h
        injection h with h
        injection h with h1 h2
        rw [← h1]
        exact hth
      · rw [if_neg hth] at h
        exact ih (i + 1) st3 st2 r h hr

theorem line_loop_break_now (R : Line.RANSAC) (rnd : ℕ → ℕ) (fuel i : ℕ)
    (st st2 : Line.State) (hstep : Line.step R rnd i st = some st2)
    (hth : R.threshold ≤ st2.best) :
    Line.loop R rnd (fuel + 1) i st = some (st2, fuel) := by
  simp only [Line.loop, hstep]
  rw [if_pos hth]

theorem line_step_inv (R : Line.RANSAC) (rnd : ℕ → ℕ) (i : ℕ) (st st2 : Line.State)
    (h : Line.step R rnd i st = some st2)
    (hinv : (st.bestModel = LineModel.init ∧ st.best = 0) ∨
      ∃ mdl : LineModel,
        st.bestModel = Line.FitLeastSquares (Line.lineConsensus R.data R.tolerance mdl) ∧
        ((Line.lineConsensus R.data R.tolerance mdl).length : ℤ) = st.best) :
    (st2.bestModel = LineModel.init ∧ st2.best = 0) ∨
      ∃ mdl : LineModel,
        st2.bestModel = Line.FitLeastSquares (Line.lineConsensus R.data R.tolerance mdl) ∧
        ((Line.lineConsensus R.data R.tolerance mdl).length : ℤ) = st2.best := by
  obtain ⟨pt1, pt2, _, hst2⟩ := line_step_some R rnd i st st2 h
  rw [hst2, Line.update]
  by_cases himp : st.best <
      ((Line.lineConsensus R.data R.tolerance (LineModel.ofPoints pt1 pt2)).length : ℤ)
  · rw [if_pos himp]
    exact Or.inr ⟨LineModel.ofPoints pt1 pt2, rfl, rfl⟩
  · rw [if_neg himp]
    exact hinv

theorem line_loop_inv (R : Line.RANSAC) (rnd : ℕ → ℕ) :
    ∀ (fuel i : ℕ) (st st2 : Line.State) (r : ℕ),
      Line.loop R rnd fuel i st = some (st2, r) →
      ((st.bestModel = LineModel.init ∧ st.best = 0) ∨
        ∃ mdl : LineModel,
          st.bestModel = Line.FitLeastSquares (Line.lineConsensus R.data R.tolerance mdl) ∧
          ((Line.lineConsensus R.data R.tolerance mdl).length : ℤ) = st.best) →
      ((st2.bestModel = LineModel.init ∧ st2.best = 0) ∨
        ∃ mdl : LineModel,
          st2.bestModel = Line.FitLeastSquares (Line.lineConsensus R.data R.tolerance mdl) ∧
          ((Line.lineConsensus R.data R.tolerance mdl).length : ℤ) = st2.best) := by
  intro fuel
  induction fuel with
  | zero =>
    intro i st st2 r h hinv
    simp only [Line.loop] at h
    injection h with h
    injection h with h1 h2
    rw [← h1]
    exact hinv
  | succ k ih =>
    intro i st st2 r h hinv
    simp only [Line.loop] at h
    cases hstep : Line.step R rnd i st with
    | none =>
      rw [hstep] at h
      cases h
    | some st3 =>
      rw [hstep] at h
      simp only [] at h
      have hinv3 := line_step_inv R rnd i st st3 hstep hinv
      by_cases hth : R.threshold ≤ st3.best
      · rw [if_pos hth] at h
        injection h with h
        injection h with h1 h2
        rw [← h1]
        exact hinv3
      · rw [if_neg hth] at h
        exact ih (i + 1) st3 st2 r h hinv3

/-- Claim C8: the plane refiner on at least 3 points (under the Eigen
contract that the SVD column is unit and the square root of 1 is 1) returns
a model with a unit-length normal oriented so that normal dot centroid is
not positive, and on fewer than 3 points returns the invalid default
model. -/
theorem plane_refit_spec :
    ∀ (sq : ℚ → ℚ) (svdV2 : List Vec3 → Vec3) (cs : List Vec3),
      (sq 1 = 1 → (∀ l, normSq (svdV2 l) = 1) → 3 ≤ cs.length →
        normSq (Plane.fitModel sq svdV2 cs).normal = 1 ∧
        (Plane.fitModel sq svdV2 cs).isValid = true ∧
        dot (Plane.fitModel sq svdV2 cs).normal
          (vscale (1 / (cs.length : ℚ)) (vsum cs)) ≤ 0) ∧
      (cs.length < 3 →
        Plane.fitModel sq svdV2 cs = PlaneModel.init ∧
        (Plane.fitModel sq svdV2 cs).isValid = false) := by
  intro sq svdV2 cs
  constructor
  · intro h1 hu h3
    exact fitModel_spec sq svdV2 cs h1 hu h3
  · intro h3
    have he : Plane.fitModel sq svdV2 cs = PlaneModel.init := by
      rw [Plane.fitModel, if_pos h3]
    rw [he]
    exact ⟨rfl, init_isValid_false⟩

/-- Claim C8 witness: a three-point set gets a valid refit, a one-point
set the default model. -/
theorem plane_refit_spec_witness :
    (Plane.fitModel (fun _ => 1) (fun _ => ⟨0, 0, 1⟩)
      [⟨0, 0, 0⟩, ⟨1, 0, 0⟩, ⟨0, 1, 0⟩]).isValid = true ∧
    Plane.fitModel (fun _ => 1) (fun _ => ⟨0, 0, 1⟩) [vzero] = PlaneModel.init := by
  constructor
  · exact ((plane_refit_spec (fun _ => 1) (fun _ => ⟨0, 0, 1⟩)
      [⟨0, 0, 0⟩, ⟨1, 0, 0⟩, ⟨0, 1, 0⟩]).1 rfl
      (fun l => by norm_num [normSq]) (by norm_num)).2.1
  · exact ((plane_refit_spec (fun _ => 1) (fun _ => ⟨0, 0, 1⟩) [vzero]).2 (by norm_num)).1

/-- Claim C4: in both variants the best-inlier-count never decreases
across loop iterations, and the stored best (consensus set for the plane,
model for the line, and the count itself) is overwritten only when the
iteration's consensus set is strictly larger than the current best
count. -/
theorem best_count_monotone :
    (∀ (R : Plane.RANSAC) (sq : ℚ → ℚ) (perm : ℕ → List ℕ) (fuel i : ℕ)
        (st : Plane.State),
      st.best ≤ ((Plane.loop R sq perm fuel i st).1).best) ∧
    (∀ (st : Plane.State) (cs : List Vec3),
      st.best ≤ (Plane.update st cs).best ∧
      ((Plane.update st cs).bestSet ≠ st.bestSet → st.best < (cs.length : ℤ)) ∧
      ((Plane.update st cs).best ≠ st.best → st.best < (cs.length : ℤ))) ∧
    (∀ (R : Line.RANSAC) (rnd : ℕ → ℕ) (fuel i : ℕ) (st st2 : Line.State) (r : ℕ),
      Line.loop R rnd fuel i st = some (st2, r) → st.best ≤ st2.best) ∧
    (∀ (st : Line.State) (cs : List Point2),
      st.best ≤ (Line.update st cs).best ∧
      ((Line.update st cs).bestModel ≠ st.bestModel → st.best < (cs.length : ℤ)) ∧
      ((Line.update st cs).best ≠ st.best → st.best < (cs.length : ℤ))) := by
  refine ⟨plane_loop_best_mono, ?_, line_loop_best_mono, ?_⟩
  · intro st cs
    exact ⟨plane_update_best_mono st cs, (plane_update_changes st cs).1,
      (plane_update_changes st cs).2⟩
  · intro st cs
    exact ⟨line_update_best_mono st cs, (line_update_changes st cs).1,
      (line_update_changes st cs).2⟩

/-- Claim C4 witness at concrete states and stores. -/
theorem best_count_monotone_witness :
    ((⟨0, [], 0⟩ : Plane.State).best ≤
      ((Plane.loop ⟨[], 1, 2, 1⟩ (fun q => q) (fun _ => []) 2 0 ⟨0, [], 0⟩).1).best) ∧
    ((0 : ℤ) < (([vzero] : List Vec3).length : ℤ)) ∧
    ((⟨0, LineModel.init⟩ : Line.State).best ≤ (⟨0, LineModel.init⟩ : Line.State).best) ∧
    ((0 : ℤ) < (([((0 : ℚ), (0 : ℚ))] : List Point2).length : ℤ)) := by
  refine ⟨best_count_monotone.1 ⟨[], 1, 2, 1⟩ (fun q => q) (fun _ => []) 2 0 ⟨0, [], 0⟩,
    ?_, ?_, ?_⟩
  · exact (best_count_monotone.2.1 ⟨0, [], 0⟩ [vzero]).2.2 (by simp [Plane.update])
  · exact best_count_monotone.2.2.1 ⟨[], 1, 0, 0⟩ (fun _ => 0) 0 0
      ⟨0, LineModel.init⟩ ⟨0, LineModel.init⟩ 0 rfl
  · exact (best_count_monotone.2.2.2 ⟨0, LineModel.init⟩ [((0 : ℚ), (0 : ℚ))]).2.2
      (by simp [Line.update])

/-- Claim C7: the plane iteration loop exits before the budget only when
both the consensus threshold is met and the stagnation counter strictly
exceeds a quarter of the iteration budget; the line loop exits early only
when the threshold is met, and does so immediately in the iteration whose
updated best count reaches it. -/
theorem termination_policy :
    (∀ (R : Plane.RANSAC) (sq : ℚ → ℚ) (perm : ℕ → List ℕ) (fuel i : ℕ)
        (st st2 : Plane.State) (r : ℕ),
      Plane.loop R sq perm fuel i st = (st2, r) → 0 < r →
      R.min_consensus ≤ st2.best ∧ ((R.max_iterations / 4 : ℕ) : ℤ) < st2.stale) ∧
    (∀ (R : Line.RANSAC) (rnd : ℕ → ℕ) (fuel i : ℕ) (st st2 : Line.State) (r : ℕ),
      Line.loop R rnd fuel i st = some (st2, r) → 0 < r → R.threshold ≤ st2.best) ∧
    (∀ (R : Line.RANSAC) (rnd : ℕ → ℕ) (fuel i : ℕ) (st st2 : Line.State),
      Line.step R rnd i st = some st2 → R.threshold ≤ st2.best →
      Line.loop R rnd (fuel + 1) i st = some (st2, fuel)) := by
  refine ⟨?_, ?_, ?_⟩
  · intro R sq perm fuel i st st2 r h hr
    exact plane_loop_early R sq perm fuel i st st2 r h hr
  · intro R rnd fuel i st st2 r h hr
    exact line_loop_early R rnd fuel i st st2 r h hr
  · intro R rnd fuel i st st2 hstep hth
    exact line_loop_break_now R rnd fuel i st st2 hstep hth

/-- Claim C7 witness: a plane loop that breaks one iteration early with a
non-improving second iteration, and a line loop that breaks as soon as the
threshold is reached. -/
theorem termination_policy_witness :
    ((-5 : ℤ) ≤ (5 : ℤ) ∧ (((0 / 4 : ℕ) : ℤ) < (8 : ℤ))) ∧
    ((1 : ℤ) ≤ (2 : ℤ)) ∧
    Line.loop ⟨[((0 : ℚ), (0 : ℚ)), (1, 1)], 1, 2, 1⟩ (fun n => n) 5 0
      ⟨0, LineModel.init⟩ = some (⟨2, ⟨1, 0⟩⟩, 4) := by
  refine ⟨?_, ?_, ?_⟩
  · exact termination_policy.1 ⟨[⟨0, 0, 0⟩, ⟨1, 0, 0⟩, ⟨0, 1, 0⟩], 1, 0, -5⟩ (fun _ => 1)
      (fun _ => [0, 1, 2]) 2 0 ⟨5, [], 7⟩ ⟨5, [], 8⟩ 1
      (by norm_num [Plane.loop, Plane.findSample, Plane.scanAttempts, Plane.areCollinear,
        PlaneModel.ofPoints, PlaneModel.isValid, vnormalized, normSq, cross, vsub, dot,
        vscale, Plane.getConsensusSet, pushScan, PlaneModel.computeDistance, Plane.update,
        Plane.stopCond])
      (by norm_num)
  · exact termination_policy.2.1 ⟨[((0 : ℚ), (0 : ℚ)), (1, 1)], 1, 2, 1⟩ (fun n => n) 2 0
      ⟨0, LineModel.init⟩ ⟨2, ⟨1, 0⟩⟩ 1
      (by norm_num [Line.loop, Line.step, Line.update, Line.lineConsensus, pushScan,
        LineModel.ofPoints, LineModel.computeError, Line.FitLeastSquares, Line.lsqAcc,
        LineModel.init])
      (by norm_num)
  · exact termination_policy.2.2 ⟨[((0 : ℚ), (0 : ℚ)), (1, 1)], 1, 2, 1⟩ (fun n => n) 4 0
      ⟨0, LineModel.init⟩ ⟨2, ⟨1, 0⟩⟩
      (by norm_num [Line.step, Line.update, Line.lineConsensus, pushScan,
        LineModel.ofPoints, LineModel.computeError, Line.FitLeastSquares, Line.lsqAcc,
        LineModel.init])
      (by norm_num)

/-- The final phase of the plane run: with at least 3 data points and a
best consensus set of at least 3 points (under the Eigen contract), the
result is exactly the refit of that set and it is valid. -/
theorem plane_run_refit (R : Plane.RANSAC) (sq : ℚ → ℚ) (svdV2 : List Vec3 → Vec3)
    (perm : ℕ → List ℕ) (h1 : sq 1 = 1) (hu : ∀ l, normSq (svdV2 l) = 1)
    (hd : 3 ≤ R.data.length)
    (hb : 3 ≤ ((Plane.loop R sq perm R.max_iterations 0 Plane.initState).1).bestSet.length) :
    Plane.run R sq svdV2 perm =
      Plane.fitModel sq svdV2
        ((Plane.loop R sq perm R.max_iterations 0 Plane.initState).1).bestSet ∧
    (Plane.run R sq svdV2 perm).isValid = true := by
  have hlt : ¬ R.data.length < 3 := not_lt.2 hd
  have hval := (fitModel_spec sq svdV2 _ h1 hu hb).2.1
  have hne : ((Plane.loop R sq perm R.max_iterations 0 Plane.initState).1).bestSet ≠ [] := by
    intro hnil
    rw [hnil] at hb
    simp at hb
  rw [Plane.run, if_neg hlt]
  simp only []
  rw [if_pos ⟨hne, hb⟩, if_pos hval]
  exact ⟨rfl, hval⟩

/-- Claim C2: the plane run returns the refit of the best consensus set
(valid, not the default model) whenever that set has at least 3 points,
threshold met or not; the line run returns the tracked best model, which
is either the untouched default (no improvement ever) or the least-squares
refit of the best consensus set found. -/
theorem run_returns_best_refit :
    (∀ (R : Plane.RANSAC) (sq : ℚ → ℚ) (svdV2 : List Vec3 → Vec3) (perm : ℕ → List ℕ),
      sq 1 = 1 → (∀ l, normSq (svdV2 l) = 1) → 3 ≤ R.data.length →
      3 ≤ ((Plane.loop R sq perm R.max_iterations 0 Plane.initState).1).bestSet.length →
      Plane.run R sq svdV2 perm =
        Plane.fitModel sq svdV2
          ((Plane.loop R sq perm R.max_iterations 0 Plane.initState).1).bestSet ∧
      (Plane.run R sq svdV2 perm).isValid = true) ∧
    (∀ (R : Line.RANSAC) (rnd : ℕ → ℕ) (st2 : Line.State) (r : ℕ),
      Line.loop R rnd R.max_iterations 0 Line.initState = some (st2, r) →
      Line.run R rnd = some st2.bestModel ∧
      ((st2.bestModel = LineModel.init ∧ st2.best = 0) ∨
        ∃ mdl : LineModel,
          st2.bestModel = Line.FitLeastSquares (Line.lineConsensus R.data R.tolerance mdl) ∧
          ((Line.lineConsensus R.data R.tolerance mdl).length : ℤ) = st2.best)) := by
  constructor
  · intro R sq svdV2 perm h1 hu hd hb
    exact plane_run_refit R sq svdV2 perm h1 hu hd hb
  · intro R rnd st2 r h
    constructor
    · rw [Line.run, h]
      rfl
    · exact line_loop_inv R rnd R.max_iterations 0 Line.initState st2 r h
        (Or.inl ⟨rfl, rfl⟩)

/-- Claim C2 witness: a plane run whose loop retains a 3-point consensus
set returns its valid refit though the threshold 5 was never met, and a
line run returns the refit stored by its best iteration. -/
theorem run_returns_best_refit_witness :
    (Plane.run ⟨[⟨0, 0, 0⟩, ⟨1, 0, 0⟩, ⟨0, 1, 0⟩], 1, 1, 5⟩ (fun _ => 1)
      (fun _ => ⟨0, 0, 1⟩) (fun _ => [0, 1, 2])).isValid = true ∧
    Line.run ⟨[((0 : ℚ), (0 : ℚ)), (1, 1)], 1, 2, 1⟩ (fun n => n) =
      some (⟨1, 0⟩ : LineModel) := by
  constructor
  · exact (run_returns_best_refit.1 ⟨[⟨0, 0, 0⟩, ⟨1, 0, 0⟩, ⟨0, 1, 0⟩], 1, 1, 5⟩
      (fun _ => 1) (fun _ => ⟨0, 0, 1⟩) (fun _ => [0, 1, 2]) rfl
      (fun l => by norm_num [normSq]) (by norm_num)
      (by norm_num [Plane.loop, Plane.findSample, Plane.scanAttempts, Plane.areCollinear,
        PlaneModel.ofPoints, PlaneModel.isValid, vnormalized, normSq, cross, vsub, dot,
        vscale, Plane.getConsensusSet, pushScan, PlaneModel.computeDistance, Plane.update,
        Plane.stopCond, Plane.initState])).2
  · exact (run_returns_best_refit.2 ⟨[((0 : ℚ), (0 : ℚ)), (1, 1)], 1, 2, 1⟩ (fun n => n)
      ⟨2, ⟨1, 0⟩⟩ 1
      (by norm_num [Line.loop, Line.step, Line.update, Line.lineConsensus, pushScan,
        LineModel.ofPoints, LineModel.computeError, Line.FitLeastSquares, Line.lsqAcc,
        LineModel.init, Line.initState])).1

/-- Claim C5 (code bug in the line variant): the plane run on fewer than 3
points returns the default model as the spec says, but the line run has no
size guard: on a single-point store both draws coincide and the retry loop
never terminates (and an empty store divides by zero in rand() mod size),
so no default model is ever returned. -/
theorem insufficient_data_run :
    Plane.run ⟨[⟨0, 0, 0⟩, ⟨1, 0, 0⟩], 1, 10, 3⟩ (fun _ => 1) (fun _ => ⟨0, 0, 1⟩)
      (fun _ => [0, 1]) = PlaneModel.init ∧
    Line.run ⟨[((0 : ℚ), (0 : ℚ))], 1, 5, 3⟩ (fun _ => 0) = none := by
  constructor
  · rw [Plane.run, if_pos (by norm_num)]
  · norm_num [Line.run, Line.loop, Line.step, Line.initState]

/-- Claim C6 (code bug): with two distinct points in the store, a run in
which both draws of an iteration hit the same point diverges: the retry
while-loop re-declares pt2 in its body, the tested outer pt2 never changes,
and the sampling never terminates, so no model is returned at all. -/
theorem line_sampling_divergence :
    (((0 : ℚ), (0 : ℚ)) : Point2) ≠ ((1 : ℚ), (1 : ℚ)) ∧
    Line.run ⟨[((0 : ℚ), (0 : ℚ)), (1, 1)], 1, 5, 3⟩ (fun _ => 0) = none := by
  constructor
  · intro h
    have h1 : (0 : ℚ) = 1 := congrArg Prod.fst h
    norm_num at h1
  · norm_num [Line.run, Line.loop, Line.step, Line.initState]
